import Mathlib

/-!
# Verification of the cuey-ts client-side validation and transport layer

Shallow embedding of the `cuey-ts` TypeScript client library: the validation
utilities of `src/resources/base-resource.ts`, the resource pipelines of
`src/resources/events.ts`, the transport error translation of
`src/utils/http.ts`, and the configuration resolution of `src/client.ts`.

Modelling conventions:
* JavaScript strings are Lean `String`s; `String.prototype.startsWith`,
  `endsWith` and `trim` are modelled by `jsStartsWith`, `jsEndsWith` and
  `jsTrim` (ASCII whitespace).
* JavaScript numbers that flow into the validators are modelled by `Rat`
  (so that non-integers such as `5.5` are representable); `Number.isInteger`
  is `q.den = 1`.
* `throw new ValidationError(...)` is `Except.error` carrying a
  `ValidationErr` record of the message and the `details` payload.
* The WHATWG `new URL(...)` constructor is a platform function; its
  success/failure is modelled by `isValidURL` (input preprocessing, scheme
  parsing, and the host requirement of special schemes).
* `Date.parse` semantics are implementation defined, so the scheduled-time
  validator is parameterized by a parse function `String → Option Int`
  (epoch milliseconds; `none` models an invalid date) and by `now : Int`.
-/

deriving instance DecidableEq for Except

namespace Cuey

/-! ## JavaScript string primitives -/

/-- ASCII whitespace, the fragment of the `String.prototype.trim` character
class that occurs in ASCII input. -/
def isJsWhitespace (c : Char) : Bool :=
  c == ' ' || c == '\t' || c == '\n' || c == '\r' || c == '\x0b' || c == '\x0c'

/-- Model of `String.prototype.trim` (on ASCII whitespace). -/
def jsTrim (s : String) : String :=
  String.mk (((s.toList.dropWhile isJsWhitespace).reverse.dropWhile isJsWhitespace).reverse)

/-- Model of `String.prototype.startsWith`. -/
def jsStartsWith (s p : String) : Bool :=
  p.toList.isPrefixOf s.toList

/-- Model of `String.prototype.endsWith`. -/
def jsEndsWith (s p : String) : Bool :=
  p.toList.isSuffixOf s.toList

/-- JavaScript truthiness of an optional string (`undefined` and `""` are
falsy, every other string is truthy). -/
def truthyStr : Option String → Bool
  | some s => !(s == "")
  | none => false

/-- `a || b` on optional strings, as used by the configuration resolution
(`config.x || env.X || undefined`). -/
def firstTruthy (a b : Option String) : Option String :=
  if truthyStr a then a else if truthyStr b then b else none

/-! ## Model of the WHATWG `new URL(...)` success condition -/

/-- Scheme characters after the first (`[a-zA-Z0-9+\-.]`). -/
def isSchemeChar (c : Char) : Bool :=
  c.isAlpha || c.isDigit || c == '+' || c == '-' || c == '.'

/-- The WHATWG URL parser first strips leading and trailing C0 controls and
spaces and removes every ASCII tab and newline. -/
def urlPreprocess (s : String) : List Char :=
  (((s.toList.dropWhile (fun c => c ≤ ' ')).reverse.dropWhile (fun c => c ≤ ' ')).reverse).filter
    (fun c => !(c == '\t' || c == '\n' || c == '\r'))

/-- Splits a leading `scheme ":"`; returns the lowercased scheme and the
remainder, or `none` when no well-formed scheme is present. -/
def splitScheme (l : List Char) : Option (String × List Char) :=
  match l.takeWhile (fun c => !(c == ':')), l.dropWhile (fun c => !(c == ':')) with
  | c :: pre, ':' :: rest =>
    if c.isAlpha && pre.all isSchemeChar then
      some (String.mk ((c :: pre).map Char.toLower), rest)
    else none
  | _, _ => none

/-- Schemes the WHATWG parser treats as special (requiring an authority). -/
def specialSchemes : List String := ["http", "https", "ws", "wss", "ftp"]

/-- Code points forbidden inside a host. -/
def forbiddenHostChar (c : Char) : Bool :=
  c == '\x00' || c == ' ' || c == '#' || c == '/' || c == ':' || c == '<' || c == '>' ||
  c == '?' || c == '@' || c == '[' || c == '\\' || c == ']' || c == '^' || c == '|'

/-- A `host[:port]` run is valid when the host is non-empty, free of
forbidden host code points, and the optional port is numeric. -/
def validHostPort (hostport : List Char) : Bool :=
  if hostport.contains ':' then
    let rev := hostport.reverse
    let portRev := rev.takeWhile (fun c => !(c == ':'))
    let host := (rev.drop (portRev.length + 1)).reverse
    !host.isEmpty && host.all (fun c => !forbiddenHostChar c) && portRev.all Char.isDigit
  else
    !hostport.isEmpty && hostport.all (fun c => !forbiddenHostChar c)

/-- Success condition of `new URL(s)` (basic URL parser, no base): a scheme
must be present; for a special scheme the authority must contain a valid
non-empty host; `file:` and non-special schemes accept any remainder. -/
def isValidURL (s : String) : Bool :=
  match splitScheme (urlPreprocess s) with
  | none => false
  | some (scheme, rest) =>
    if scheme == "file" then true
    else if specialSchemes.contains scheme then
      let afterSlashes := rest.dropWhile (fun c => c == '/' || c == '\\')
      let authority := afterSlashes.takeWhile (fun c => !(c == '/' || c == '\\' || c == '?' || c == '#'))
      let hostport :=
        if authority.contains '@' then
          (authority.reverse.takeWhile (fun c => !(c == '@'))).reverse
        else authority
      validHostPort hostport
    else true

/-! ## ValidationError payloads -/

/-- A JavaScript value stored in a `ValidationError` `details` payload. -/
inductive JsValue where
  | vstr (s : String)
  | vnum (q : Rat)
  | vnone
deriving DecidableEq, Repr

/-- A thrown `ValidationError`: the message together with the `details`
fields the validators attach (absent fields default to `none`). -/
structure ValidationErr where
  message : String
  field : String
  value : JsValue := .vnone
  baseUrl : Option String := none
  key : Option String := none
  now : Option Int := none
  allowedMethods : Option (List String) := none
deriving DecidableEq, Repr

/-! ## Validators (`src/resources/base-resource.ts`) -/

/-- The base URL with its single trailing `/` stripped
(`this.webhookBaseUrl.replace(/\/$/, "")`). -/
def stripTrailingSlash (b : String) : String :=
  if jsEndsWith b "/" then b.dropRight 1 else b

/-- `BaseResource.validateAndNormalizeWebhookUrl` (base-resource.ts lines
25-85): absolute `http(s)://` URLs are checked with `new URL` and the
trimmed string is returned; a path starting with `/` is resolved against
the configured base URL (single trailing slash stripped); everything else
is rejected. -/
def validateAndNormalizeWebhookUrl (webhookBaseUrl : Option String) (webhookUrl : String) :
    Except ValidationErr String :=
  if webhookUrl == "" then
    .error { message := "webhook_url is required and must be a string",
             field := "webhook_url", value := .vstr webhookUrl }
  else
    let trimmed := jsTrim webhookUrl
    if jsStartsWith trimmed "http://" || jsStartsWith trimmed "https://" then
      if isValidURL trimmed then
        .ok trimmed
      else
        .error { message := "Invalid webhook URL: \"" ++ trimmed ++ "\" is not a valid URL",
                 field := "webhook_url", value := .vstr trimmed }
    else if jsStartsWith trimmed "/" then
      if !truthyStr webhookBaseUrl then
        .error { message := "Relative webhook URL provided but no baseUrl is configured. Either provide a full URL (starting with http:// or https://) or configure baseUrl in CueyConfig or set CUEY_BASE_URL environment variable.",
                 field := "webhook_url", value := .vstr trimmed, baseUrl := webhookBaseUrl }
      else
        let base := stripTrailingSlash (webhookBaseUrl.getD "")
        let fullUrl := base ++ trimmed
        if isValidURL fullUrl then
          .ok fullUrl
        else
          .error { message := "Invalid webhook URL: Cannot combine baseUrl \"" ++ webhookBaseUrl.getD "" ++ "\" with path \"" ++ trimmed ++ "\"",
                   field := "webhook_url", value := .vstr trimmed, baseUrl := webhookBaseUrl }
    else
      .error { message := "Invalid webhook URL: \"" ++ trimmed ++ "\" must be a full URL (starting with http:// or https://) or a relative path (starting with /)",
               field := "webhook_url", value := .vstr trimmed }

/-- `RetryConfig` as validated at runtime: each field may be absent, and
numeric fields are arbitrary JavaScript numbers (`Rat`). -/
structure RetryConfig where
  maxRetries : Option Rat := none
  backoffMs : Option Rat := none
  backoffType : Option String := none
deriving DecidableEq, Repr

/-- `Number.isInteger`. -/
def isJsInteger (q : Rat) : Bool := q.den == 1

/-- The guard of each numeric `retry_config` field: present and
(non-numeric is impossible here) below `lo`, above `hi`, or non-integral. -/
def numFieldViolates (v : Option Rat) (lo hi : Rat) : Bool :=
  match v with
  | none => false
  | some q => q < lo || hi < q || !isJsInteger q

/-- The guard of `retry_config.backoffType`: present and neither
`"exponential"` nor `"linear"`. -/
def backoffTypeViolates : Option String → Bool
  | none => false
  | some t => !(t == "exponential") && !(t == "linear")

/-- `BaseResource.validateRetryConfig` (base-resource.ts lines 93-152). -/
def validateRetryConfig (retryConfig : Option RetryConfig) : Except ValidationErr Unit :=
  match retryConfig with
  | none => .ok ()
  | some rc =>
    if numFieldViolates rc.maxRetries 1 10 then
      .error { message := "retry_config.maxRetries must be an integer between 1 and 10",
               field := "retry_config.maxRetries",
               value := match rc.maxRetries with | some q => .vnum q | none => .vnone }
    else if numFieldViolates rc.backoffMs 100 5000 then
      .error { message := "retry_config.backoffMs must be an integer between 100 and 5000",
               field := "retry_config.backoffMs",
               value := match rc.backoffMs with | some q => .vnum q | none => .vnone }
    else if backoffTypeViolates rc.backoffType then
      .error { message := "retry_config.backoffType must be either \"exponential\" or \"linear\"",
               field := "retry_config.backoffType",
               value := match rc.backoffType with | some t => .vstr t | none => .vnone }
    else .ok ()

/-- `BaseResource.validateHeaders` loop body (base-resource.ts lines
174-189): every key must be non-empty after trimming and every value a
string. -/
def validateHeadersList : List (String × JsValue) → Except ValidationErr Unit
  | [] => .ok ()
  | (k, v) :: rest =>
    if jsTrim k == "" then
      .error { message := "All header keys must be non-empty strings",
               field := "headers", key := some k, value := v }
    else
      match v with
      | .vstr _ => validateHeadersList rest
      | _ =>
        .error { message := "Header \"" ++ k ++ "\" must have a string value",
                 field := "headers", key := some k, value := v }

/-- `BaseResource.validateHeaders` (base-resource.ts lines 160-190);
`null`/`undefined` is valid. -/
def validateHeaders (headers : Option (List (String × JsValue))) : Except ValidationErr Unit :=
  match headers with
  | none => .ok ()
  | some hs => validateHeadersList hs

/-- `ALLOWED_HTTP_METHODS` (types/models.ts). -/
def ALLOWED_HTTP_METHODS : List String :=
  ["GET", "POST", "PUT", "PATCH", "DELETE", "HEAD", "OPTIONS"]

/-- `BaseResource.validateMethod` (base-resource.ts lines 199-220):
`undefined` passes through; a given method must be in the allowed set. -/
def validateMethod (method : Option String) : Except ValidationErr (Option String) :=
  match method with
  | none => .ok none
  | some m =>
    if ALLOWED_HTTP_METHODS.contains m then .ok (some m)
    else
      .error { message := "Invalid HTTP method: \"" ++ m ++ "\". Must be one of: " ++
                 String.intercalate ", " ALLOWED_HTTP_METHODS,
               field := "method", value := .vstr m,
               allowedMethods := some ALLOWED_HTTP_METHODS }

/-- `BaseResource.validateScheduledAt` (base-resource.ts lines 228-271),
parameterized by the platform date parser (`new Date(s).getTime()`, with
`none` for an invalid date) and the current instant `now` in epoch
milliseconds. -/
def validateScheduledAt (parseDate : String → Option Int) (now : Int) (scheduledAt : String) :
    Except ValidationErr Unit :=
  if scheduledAt == "" then
    .error { message := "scheduled_at is required and must be a string",
             field := "scheduled_at", value := .vstr scheduledAt }
  else
    let trimmed := jsTrim scheduledAt
    if trimmed == "" then
      .error { message := "scheduled_at cannot be empty",
               field := "scheduled_at", value := .vstr scheduledAt }
    else
      match parseDate trimmed with
      | none =>
        .error { message := "Invalid scheduled_at: \"" ++ trimmed ++ "\" is not a valid date",
                 field := "scheduled_at", value := .vstr trimmed }
      | some t =>
        if t ≤ now then
          .error { message := "scheduled_at must be in the future. Received: \"" ++ trimmed ++ "\"",
                   field := "scheduled_at", value := .vstr trimmed, now := some now }
        else .ok ()

/-! ## Events resource pipelines (`src/resources/events.ts`) -/

/-- `CreateEventInput` (types/api.ts), restricted to the fields the
client-side validators inspect. -/
structure CreateEventInput where
  webhook_url : String
  method : Option String := none
  scheduled_at : String
  headers : Option (List (String × JsValue)) := none
  retry_config : Option RetryConfig := none
deriving DecidableEq, Repr

/-- `UpdateEventInput` (types/api.ts) declares the same validated fields as
`CreateEventInput`. -/
abbrev UpdateEventInput := CreateEventInput

/-- The payload `EventsResource.create`/`update` sends after validation. -/
structure ValidatedEventInput where
  webhook_url : String
  method : Option String
  scheduled_at : String
  headers : Option (List (String × JsValue))
  retry_config : Option RetryConfig
deriving DecidableEq, Repr

/-- The validation phase of `EventsResource.create` (events.ts lines
89-107): `validateScheduledAt` runs first, then — evaluating the object
literal in order — `validateMethod (input.method ?? "POST")` and
`validateAndNormalizeWebhookUrl`, then `validateRetryConfig` and
`validateHeaders`. -/
def eventsCreateValidate (webhookBaseUrl : Option String) (parseDate : String → Option Int)
    (now : Int) (input : CreateEventInput) : Except ValidationErr ValidatedEventInput := do
  validateScheduledAt parseDate now input.scheduled_at
  let m ← validateMethod (some (input.method.getD "POST"))
  let u ← validateAndNormalizeWebhookUrl webhookBaseUrl input.webhook_url
  validateRetryConfig input.retry_config
  validateHeaders input.headers
  pure { webhook_url := u, method := m, scheduled_at := input.scheduled_at,
         headers := input.headers, retry_config := input.retry_config }

/-- The validation phase of `EventsResource.update` (events.ts lines
127-145): identical to create except the method is passed through
without the `?? "POST"` default. -/
def eventsUpdateValidate (webhookBaseUrl : Option String) (parseDate : String → Option Int)
    (now : Int) (input : UpdateEventInput) : Except ValidationErr ValidatedEventInput := do
  validateScheduledAt parseDate now input.scheduled_at
  let m ← validateMethod input.method
  let u ← validateAndNormalizeWebhookUrl webhookBaseUrl input.webhook_url
  validateRetryConfig input.retry_config
  validateHeaders input.headers
  pure { webhook_url := u, method := m, scheduled_at := input.scheduled_at,
         headers := input.headers, retry_config := input.retry_config }

/-! ## Error taxonomy (`src/types/errors.ts`) and transport (`src/utils/http.ts`) -/

/-- The closed set of `CueyError` subclasses. -/
inductive CueyErrorKind where
  | unauthorized
  | notFound
  | badRequest
  | validationError
  | internalServerError
deriving DecidableEq, Repr

/-- The stable `code` string each `CueyError` subclass passes to `super`. -/
def CueyErrorKind.code : CueyErrorKind → String
  | .unauthorized => "UNAUTHORIZED"
  | .notFound => "NOT_FOUND"
  | .badRequest => "BAD_REQUEST"
  | .validationError => "VALIDATION_ERROR"
  | .internalServerError => "INTERNAL_SERVER_ERROR"

/-- The fixed `statusCode` each `CueyError` subclass passes to `super`. -/
def CueyErrorKind.statusCode : CueyErrorKind → Nat
  | .unauthorized => 401
  | .notFound => 404
  | .badRequest => 400
  | .validationError => 400
  | .internalServerError => 500

/-- A thrown error as observed by a caller: either a typed `CueyError`
subclass instance (carrying a `code` and `statusCode`) or a plain built-in
`Error` (carrying only a message). -/
inductive ThrownError where
  | cuey (kind : CueyErrorKind) (message : String)
  | plain (message : String)
deriving DecidableEq, Repr

/-- The `code` of a thrown error; `none` for a plain `Error`. -/
def ThrownError.codeOf : ThrownError → Option String
  | .cuey k _ => some k.code
  | .plain _ => none

/-- The `statusCode` of a thrown error; `none` for a plain `Error`. -/
def ThrownError.statusCodeOf : ThrownError → Option Nat
  | .cuey k _ => some k.statusCode
  | .plain _ => none

/-- The error kind of a thrown error; `none` for a plain `Error`. -/
def ThrownError.kindOf : ThrownError → Option CueyErrorKind
  | .cuey k _ => some k
  | .plain _ => none

/-- JavaScript `a || b` where `a` is an optional string (an empty string
falls through to the default, as `errorData.error?.message || "..."` does). -/
def jsOrStr (a : Option String) (b : String) : String :=
  match a with
  | some s => if s == "" then b else s
  | none => b

/-- `HttpClient.handleError` (http.ts lines 115-157): translates a non-2xx
status and the server-supplied error code/message into a typed error. -/
def handleError (statusCode : Nat) (errorCode : Option String) (errorMessage : Option String) :
    ThrownError :=
  if statusCode == 401 then
    .cuey .unauthorized (jsOrStr errorMessage "Unauthorized. Invalid or missing API key.")
  else if statusCode == 404 then
    .cuey .notFound (jsOrStr errorMessage "Resource not found.")
  else if statusCode == 400 then
    if errorCode == some "VALIDATION_ERROR" then
      .cuey .validationError (jsOrStr errorMessage "Validation error")
    else
      .cuey .badRequest (jsOrStr errorMessage "Bad request")
  else if 500 ≤ statusCode then
    .cuey .internalServerError (jsOrStr errorMessage "An internal server error occurred.")
  else
    .cuey .internalServerError ("Unexpected error: " ++ toString statusCode)

/-- The fields of a parsed JSON response body that the error path reads
(`errorData.error?.message` and `errorData.error?.code`). -/
structure ErrorBody where
  errorMessage : Option String := none
  errorCode : Option String := none
deriving DecidableEq, Repr

/-- An HTTP response as `HttpClient.request` observes it: the status, whether
the content type includes `application/json`, the JSON body (`Except.error`
models `response.json()` rejecting, carrying the parse error message), and
the text body otherwise. -/
structure ResponseModel where
  status : Nat
  isJson : Bool
  jsonBody : Except String ErrorBody := .ok {}
  textBody : String := ""
deriving DecidableEq, Repr

/-- The data `HttpClient.request` returns on success. -/
inductive RequestData where
  | jsonData (b : ErrorBody)
  | textData (s : String)
deriving DecidableEq, Repr

/-- `response.ok`: status in the 2xx range. -/
def responseOk (status : Nat) : Bool := 200 ≤ status && status ≤ 299

/-- `HttpClient.request` (http.ts lines 68-110): resolve the API key (a
failure there surfaces as the plain `Error` the resolver throws), parse the
body (a JSON parse failure throws `InternalServerError` regardless of
status), and translate any non-2xx status through `handleError`. -/
def requestOutcome (getKeyResult : Except String String) (resp : ResponseModel) :
    Except ThrownError RequestData :=
  match getKeyResult with
  | .error e => .error (.plain e)
  | .ok _ =>
    if resp.isJson then
      match resp.jsonBody with
      | .error m =>
        .error (.cuey .internalServerError ("Failed to parse JSON response: " ++ m))
      | .ok b =>
        if responseOk resp.status then .ok (.jsonData b)
        else .error (handleError resp.status b.errorCode b.errorMessage)
    else
      if responseOk resp.status then .ok (.textData resp.textBody)
      else .error (handleError resp.status none none)

/-! ## Facade configuration resolution (`src/client.ts`) -/

/-- `CueyConfig`: both settings optional. -/
structure CueyConfig where
  baseUrl : Option String := none
  apiKey : Option String := none
deriving DecidableEq, Repr

/-- The state a constructed `Cuey` instance holds: the eagerly resolved
webhook base URL and the config API key captured by the lazy `getApiKey`
closure (the environment variable is read only when the closure runs). -/
structure CueyState where
  webhookBaseUrl : Option String
  configApiKey : Option String
deriving DecidableEq, Repr

/-- `Cuey.constructor` (client.ts lines 69-104): a total function — the body
performs no throwing operation. `webhookBaseUrl` is resolved eagerly as
`config.baseUrl || process.env.CUEY_BASE_URL || undefined`. -/
def mkCuey (config : CueyConfig) (envBaseUrl : Option String) : CueyState :=
  { webhookBaseUrl := firstTruthy config.baseUrl envBaseUrl,
    configApiKey := config.apiKey }

/-- The message of the plain `Error` thrown when no API key resolves. -/
def apiKeyRequiredMessage : String :=
  "API key is required. Provide it via config.apiKey or set the CUEY_API_KEY environment variable."

/-- The lazy `getApiKey` closure (client.ts lines 80-95):
`config.apiKey || process.env.CUEY_API_KEY || undefined`, throwing a plain
`Error` when nothing truthy resolves. -/
def getApiKey (configApiKey : Option String) (envApiKey : Option String) :
    Except String String :=
  match firstTruthy configApiKey envApiKey with
  | some k => .ok k
  | none => .error apiKeyRequiredMessage

/-- Whether an `Except` computation failed. -/
def isErr {ε α : Type} : Except ε α → Bool
  | .error _ => true
  | .ok _ => false

/-! ## Helper lemmas -/

theorem jsStartsWith_iff (s p : String) : jsStartsWith s p = true ↔ p.toList <+: s.toList := by
  simp [jsStartsWith, List.isPrefixOf_iff_prefix]

theorem jsStartsWith_disjoint (s p q : String) (c d : Char) (cs ds : List Char)
    (hp : p.toList = c :: cs) (hq : q.toList = d :: ds) (hcd : c ≠ d)
    (h : jsStartsWith s p = true) : jsStartsWith s q = false := by
  rw [jsStartsWith_iff] at h
  obtain ⟨t, ht⟩ := h
  rw [← Bool.not_eq_true, jsStartsWith_iff]
  rintro ⟨t2, ht2⟩
  rw [← ht, hp, hq] at ht2
  simp only [List.cons_append, List.cons.injEq] at ht2
  exact hcd (ht2.1.symm)

theorem jsStartsWith_slash_not_http (s : String) (h : jsStartsWith s "/" = true) :
    jsStartsWith s "http://" = false :=
  jsStartsWith_disjoint s "/" "http://" '/' 'h' [] ['t', 't', 'p', ':', '/', '/'] rfl rfl
    (by decide) h

theorem jsStartsWith_slash_not_https (s : String) (h : jsStartsWith s "/" = true) :
    jsStartsWith s "https://" = false :=
  jsStartsWith_disjoint s "/" "https://" '/' 'h' [] ['t', 't', 'p', 's', ':', '/', '/'] rfl rfl
    (by decide) h

theorem jsStartsWith_http_not_slash (s : String) (h : jsStartsWith s "http://" = true) :
    jsStartsWith s "/" = false :=
  jsStartsWith_disjoint s "http://" "/" 'h' '/' ['t', 't', 'p', ':', '/', '/'] [] rfl rfl
    (by decide) h

theorem jsStartsWith_https_not_slash (s : String) (h : jsStartsWith s "https://" = true) :
    jsStartsWith s "/" = false :=
  jsStartsWith_disjoint s "https://" "/" 'h' '/' ['t', 't', 'p', 's', ':', '/', '/'] [] rfl rfl
    (by decide) h

/-! ## C2: the normalizer on absolute URLs -/

/-- C2 counterexample: the input `"https://example.com "` starts with
`https://` and parses as a well-formed URL (the WHATWG parser strips the
trailing space), yet `validateAndNormalizeWebhookUrl` returns the trimmed
string, which differs from the input — so the normalizer is not the
identity function on all absolute-URL inputs. -/
theorem c2_counterexample :
    jsStartsWith "https://example.com " "https://" = true ∧
    isValidURL "https://example.com " = true ∧
    validateAndNormalizeWebhookUrl none "https://example.com " = .ok "https://example.com" ∧
    ("https://example.com" : String) ≠ "https://example.com " :=
  ⟨by decide, by decide, by decide, by decide⟩

/-- C2 (amended): for every input whose trimmed form starts with `http://`
or `https://` and parses as a well-formed URL, `validateAndNormalizeWebhookUrl`
returns the trimmed input — in particular it is the identity on absolute
URLs without surrounding whitespace. -/
theorem c2_absolute_url_identity (base : Option String) (u : String)
    (habs : jsStartsWith (jsTrim u) "http://" = true ∨ jsStartsWith (jsTrim u) "https://" = true)
    (hvalid : isValidURL (jsTrim u) = true) :
    validateAndNormalizeWebhookUrl base u = .ok (jsTrim u) := by
  have hne : ¬ (u == "") = true := by
    intro he
    rw [beq_iff_eq] at he
    subst he
    revert habs
    decide
  have habs2 : (jsStartsWith (jsTrim u) "http://" || jsStartsWith (jsTrim u) "https://") = true := by
    rcases habs with h | h <;> simp [h]
  simp only [validateAndNormalizeWebhookUrl]
  rw [if_neg hne, if_pos habs2, if_pos hvalid]

/-- Witness for C2 (amended) at a concrete absolute URL. -/
theorem c2_absolute_url_identity_witness :
    validateAndNormalizeWebhookUrl none "https://example.com/webhook" =
      .ok (jsTrim "https://example.com/webhook") :=
  c2_absolute_url_identity none "https://example.com/webhook" (Or.inr (by decide)) (by decide)

/-! ## C3: relative path resolution against a base URL -/

/-- C3 counterexample: with the configured base URL `"not-a-url"` and path
`"/x"` (which starts with `/`), the claimed return value
`stripTrailingSlash base ++ path` does not parse as a URL, and the
validator raises a ValidationError instead of returning it — so the claim
does not hold for every configured base URL. -/
theorem c3_counterexample :
    jsStartsWith (jsTrim "/x") "/" = true ∧
    truthyStr (some "not-a-url") = true ∧
    isErr (validateAndNormalizeWebhookUrl (some "not-a-url") "/x") = true ∧
    isValidURL (stripTrailingSlash "not-a-url" ++ "/x") = false :=
  ⟨by decide, by decide, by decide, by decide⟩

/-- C3 (amended): for every path whose trimmed form starts with `/` and
every configured non-empty base URL `b` such that the concatenation of `b`
with its single trailing slash stripped and the trimmed path parses as a
valid URL, `validateAndNormalizeWebhookUrl` returns exactly that
concatenation. -/
theorem c3_relative_resolution (b p : String)
    (hb : b ≠ "")
    (hp : jsStartsWith (jsTrim p) "/" = true)
    (hvalid : isValidURL (stripTrailingSlash b ++ jsTrim p) = true) :
    validateAndNormalizeWebhookUrl (some b) p = .ok (stripTrailingSlash b ++ jsTrim p) := by
  have hne : ¬ (p == "") = true := by
    intro he
    rw [beq_iff_eq] at he
    subst he
    revert hp
    decide
  have habs : ¬ (jsStartsWith (jsTrim p) "http://" || jsStartsWith (jsTrim p) "https://") = true := by
    rw [jsStartsWith_slash_not_http _ hp, jsStartsWith_slash_not_https _ hp]
    decide
  have htr : ¬ (!truthyStr (some b)) = true := by
    simp [truthyStr, hb]
  simp only [validateAndNormalizeWebhookUrl, Option.getD_some]
  rw [if_neg hne, if_neg habs, if_pos hp, if_neg htr, if_pos hvalid]

/-- Witness for C3 (amended): a base URL with a trailing slash and the path
`/webhook` resolve to their stripped concatenation. -/
theorem c3_relative_resolution_witness :
    validateAndNormalizeWebhookUrl (some "https://example.com/") "/webhook" =
      .ok (stripTrailingSlash "https://example.com/" ++ jsTrim "/webhook") :=
  c3_relative_resolution "https://example.com/" "/webhook" (by decide) (by decide) (by decide)

/-! ## C4: the error cases of the webhook URL validator -/

/-- C4 counterexample: `" https://example.com"` (leading space) is
non-empty and starts neither with `http://`/`https://` nor with `/`, so the
claim places it among the inputs that must raise a ValidationError — but
the validator trims first and returns a value. -/
theorem c4_counterexample :
    (" https://example.com" : String) ≠ "" ∧
    jsStartsWith " https://example.com" "http://" = false ∧
    jsStartsWith " https://example.com" "https://" = false ∧
    jsStartsWith " https://example.com" "/" = false ∧
    validateAndNormalizeWebhookUrl none " https://example.com" = .ok "https://example.com" :=
  ⟨by decide, by decide, by decide, by decide, by decide⟩

/-- C4 (amended): over string inputs, `validateAndNormalizeWebhookUrl`
raises a ValidationError (and never returns a value) in exactly these
cases: the input is empty; the trimmed input neither starts with
`http://`/`https://` nor with `/`; the trimmed input starts with
`http://`/`https://` but does not parse; the trimmed input starts with `/`
but no (non-empty) base URL is configured — regardless of path content; or
the resolved URL fails to parse. -/
theorem c4_webhook_url_error_cases (base : Option String) (u : String) :
    isErr (validateAndNormalizeWebhookUrl base u) = true ↔
      (u = "" ∨
       (jsStartsWith (jsTrim u) "http://" = false ∧ jsStartsWith (jsTrim u) "https://" = false ∧
        jsStartsWith (jsTrim u) "/" = false) ∨
       ((jsStartsWith (jsTrim u) "http://" = true ∨ jsStartsWith (jsTrim u) "https://" = true) ∧
        isValidURL (jsTrim u) = false) ∨
       (jsStartsWith (jsTrim u) "/" = true ∧ truthyStr base = false) ∨
       (jsStartsWith (jsTrim u) "/" = true ∧ truthyStr base = true ∧
        isValidURL (stripTrailingSlash (base.getD "") ++ jsTrim u) = false)) := by
  have hh1 := jsStartsWith_http_not_slash (jsTrim u)
  have hh2 := jsStartsWith_https_not_slash (jsTrim u)
  simp only [validateAndNormalizeWebhookUrl]
  split_ifs with h1 h2 h3 h4 h5 h6
  · rw [beq_iff_eq] at h1
    simp [isErr, h1]
  · -- absolute prefix, valid URL: the validator returns a value
    rw [beq_iff_eq] at h1
    simp only [isErr, Bool.false_eq_true, false_iff]
    rcases (Bool.or_eq_true _ _) ▸ h2 with ha | ha <;>
      rintro (hu | ⟨hf1, hf2, _⟩ | ⟨_, hv⟩ | ⟨hr, _⟩ | ⟨hr, _, _⟩) <;>
      first
        | exact h1 hu
        | simp_all
  · -- absolute prefix, invalid URL
    rw [beq_iff_eq] at h1
    simp only [isErr, true_iff]
    rw [Bool.not_eq_true] at h3
    exact Or.inr (Or.inr (Or.inl ⟨(Bool.or_eq_true _ _) ▸ h2, h3⟩))
  · -- relative path, no base URL
    rw [beq_iff_eq] at h1
    simp only [isErr, true_iff]
    simp only [Bool.not_eq_true'] at h5
    exact Or.inr (Or.inr (Or.inr (Or.inl ⟨h4, h5⟩)))
  · -- relative path, base URL, valid concatenation: the validator returns a value
    rw [beq_iff_eq] at h1
    simp only [isErr, Bool.false_eq_true, false_iff]
    simp only [Bool.not_eq_true, Bool.not_eq_false] at h2 h5
    rcases Bool.or_eq_false_iff.mp h2 with ⟨ha1, ha2⟩
    rintro (hu | ⟨_, _, hf⟩ | ⟨habs, _⟩ | ⟨_, htb⟩ | ⟨_, _, hv⟩)
    · exact h1 hu
    · simp_all
    · rcases habs with h | h <;> simp_all
    · simp_all [truthyStr]
    · simp_all
  · -- relative path, base URL, invalid concatenation
    rw [beq_iff_eq] at h1
    simp only [isErr, true_iff]
    simp only [Bool.not_eq_true, Bool.not_eq_false] at h5 h6
    exact Or.inr (Or.inr (Or.inr (Or.inr ⟨h4, by simpa [truthyStr] using h5, h6⟩)))
  · -- neither an absolute prefix nor a leading slash
    rw [beq_iff_eq] at h1
    simp only [isErr, true_iff]
    simp only [Bool.or_eq_true, not_or, Bool.not_eq_true] at h2
    rw [Bool.not_eq_true] at h4
    exact Or.inr (Or.inl ⟨h2.1, h2.2, h4⟩)

theorem numFieldViolates_eq_false_iff (v : Option Rat) (lo hi : Rat) :
    numFieldViolates v lo hi = false ↔
      ∀ q, v = some q → q.den = 1 ∧ lo ≤ q ∧ q ≤ hi := by
  cases v with
  | none => simp [numFieldViolates]
  | some q =>
    simp only [numFieldViolates, isJsInteger, Bool.or_eq_false_iff, decide_eq_false_iff_not,
      not_lt, Bool.not_eq_false', beq_iff_eq, Option.some.injEq]
    constructor
    · rintro ⟨⟨hlo, hhi⟩, hden⟩ q' hq'
      subst hq'
      exact ⟨hden, hlo, hhi⟩
    · intro h
      obtain ⟨hden, hlo, hhi⟩ := h q rfl
      exact ⟨⟨hlo, hhi⟩, hden⟩

theorem backoffTypeViolates_eq_false_iff (v : Option String) :
    backoffTypeViolates v = false ↔
      ∀ t, v = some t → t = "exponential" ∨ t = "linear" := by
  cases v with
  | none => simp [backoffTypeViolates]
  | some t =>
    simp only [backoffTypeViolates, Bool.and_eq_false_iff, Bool.not_eq_false', beq_iff_eq,
      Option.some.injEq]
    constructor
    · rintro (h | h) t' ht' <;> subst ht'
      · exact Or.inl h
      · exact Or.inr h
    · intro h
      rcases h t rfl with h' | h'
      · exact Or.inl h'
      · exact Or.inr h'

/-! ## C5: the retry-config validator -/

/-- C5: `validateRetryConfig` accepts `null`/`undefined` with no further
checks; otherwise each field is checked only when present: `maxRetries`
must be an integer in `[1,10]`, `backoffMs` an integer in `[100,5000]`,
and `backoffType` exactly `"exponential"` or `"linear"`; a violation
raises a ValidationError naming the offending field and rejected value,
and a partial object omitting fields is never rejected for the omission. -/
theorem c5_retry_config :
    validateRetryConfig none = .ok () ∧
    (∀ rc : RetryConfig,
      (validateRetryConfig (some rc) = .ok () ↔
        (∀ q, rc.maxRetries = some q → q.den = 1 ∧ 1 ≤ q ∧ q ≤ 10) ∧
        (∀ q, rc.backoffMs = some q → q.den = 1 ∧ 100 ≤ q ∧ q ≤ 5000) ∧
        (∀ t, rc.backoffType = some t → t = "exponential" ∨ t = "linear"))) ∧
    (∀ rc : RetryConfig, ∀ q, rc.maxRetries = some q → (q < 1 ∨ 10 < q ∨ q.den ≠ 1) →
      validateRetryConfig (some rc) =
        .error { message := "retry_config.maxRetries must be an integer between 1 and 10",
                 field := "retry_config.maxRetries", value := .vnum q }) ∧
    (∀ rc : RetryConfig, ∀ q, numFieldViolates rc.maxRetries 1 10 = false →
      rc.backoffMs = some q → (q < 100 ∨ 5000 < q ∨ q.den ≠ 1) →
      validateRetryConfig (some rc) =
        .error { message := "retry_config.backoffMs must be an integer between 100 and 5000",
                 field := "retry_config.backoffMs", value := .vnum q }) ∧
    (∀ rc : RetryConfig, ∀ t, numFieldViolates rc.maxRetries 1 10 = false →
      numFieldViolates rc.backoffMs 100 5000 = false →
      rc.backoffType = some t → t ≠ "exponential" → t ≠ "linear" →
      validateRetryConfig (some rc) =
        .error { message := "retry_config.backoffType must be either \"exponential\" or \"linear\"",
                 field := "retry_config.backoffType", value := .vstr t }) := by
  refine ⟨rfl, ?_, ?_, ?_, ?_⟩
  · intro rc
    rw [← numFieldViolates_eq_false_iff rc.maxRetries 1 10,
        ← numFieldViolates_eq_false_iff rc.backoffMs 100 5000,
        ← backoffTypeViolates_eq_false_iff rc.backoffType]
    simp only [validateRetryConfig]
    split_ifs with v1 v2 v3 <;> simp_all
  · intro rc q hq hviol
    have hv : numFieldViolates (some q) 1 10 = true := by
      simp only [numFieldViolates, isJsInteger, Bool.or_eq_true, decide_eq_true_eq,
        Bool.not_eq_true', beq_eq_false_iff_ne]
      exact or_assoc.mpr hviol
    simp [validateRetryConfig, hq, hv]
  · intro rc q h1 hq hviol
    have hv : numFieldViolates (some q) 100 5000 = true := by
      simp only [numFieldViolates, isJsInteger, Bool.or_eq_true, decide_eq_true_eq,
        Bool.not_eq_true', beq_eq_false_iff_ne]
      exact or_assoc.mpr hviol
    simp [validateRetryConfig, hq, hv, h1]
  · intro rc t h1 h2 ht hne1 hne2
    have hv : backoffTypeViolates (some t) = true := by
      simp only [backoffTypeViolates, Bool.and_eq_true, Bool.not_eq_true',
        beq_eq_false_iff_ne]
      exact ⟨hne1, hne2⟩
    simp [validateRetryConfig, ht, hv, h1, h2]

/-- Witness for C5: `retry_config = some (maxRetries 0)` is rejected with
the maxRetries error, by the third conjunct of the theorem. -/
theorem c5_retry_config_witness :
    validateRetryConfig (some { maxRetries := some 0 }) =
      .error { message := "retry_config.maxRetries must be an integer between 1 and 10",
               field := "retry_config.maxRetries", value := .vnum 0 } :=
  c5_retry_config.2.2.1 { maxRetries := some 0 } 0 rfl (Or.inl (by norm_num))

/-! ## C6: the scheduled-time validator -/

/-- C6 counterexample: on the whitespace-padded past timestamp `" 2020 "`
(with a parser mapping its trimmed form to instant 5 and `now = 10`), the
past/now ValidationError carries the trimmed value `"2020"` in its
`value` detail, which differs from the offending raw value `" 2020 "` —
so the error does not carry the raw value, refuting that clause of the
claim. -/
theorem c6_counterexample :
    validateScheduledAt (fun _ => some 5) 10 " 2020 " =
      .error { message := "scheduled_at must be in the future. Received: \"2020\"",
               field := "scheduled_at", value := .vstr "2020", now := some 10 } ∧
    JsValue.vstr "2020" ≠ JsValue.vstr " 2020 " :=
  ⟨by decide, by decide⟩

/-- C6 (amended): `validateScheduledAt` succeeds exactly when the input is
non-empty, non-blank after trimming, parseable as a valid instant, and
strictly later than `now` (equality with now is rejected); the past/now
failure carries the field name, the TRIMMED offending value, and the
current instant used for the comparison. -/
theorem c6_scheduled_at (parseDate : String → Option Int) (now : Int) (s : String) :
    (validateScheduledAt parseDate now s = .ok () ↔
      (s ≠ "" ∧ jsTrim s ≠ "" ∧ ∃ t, parseDate (jsTrim s) = some t ∧ now < t)) ∧
    (∀ t, s ≠ "" → jsTrim s ≠ "" → parseDate (jsTrim s) = some t → t ≤ now →
      validateScheduledAt parseDate now s =
        .error { message := "scheduled_at must be in the future. Received: \"" ++ jsTrim s ++ "\"",
                 field := "scheduled_at", value := .vstr (jsTrim s), now := some now }) := by
  constructor
  · simp only [validateScheduledAt]
    split_ifs with h1 h2
    · rw [beq_iff_eq] at h1
      subst h1
      simp
    · rw [beq_iff_eq] at h2
      simp [h2]
    · rw [beq_iff_eq] at h1 h2
      cases hp : parseDate (jsTrim s) with
      | none => simp [hp, h1, h2]
      | some t =>
        dsimp only
        split_ifs with h3
        · constructor
          · intro h
            exact absurd h (by simp)
          · rintro ⟨-, -, t', ht', hlt⟩
            injection ht' with h4
            subst h4
            omega
        · constructor
          · intro _
            exact ⟨h1, h2, t, rfl, by omega⟩
          · intro _
            rfl
  · intro t h1 h2 hp h3
    simp only [validateScheduledAt, hp]
    rw [if_neg (by simp [h1]), if_neg (by simp [h2]), if_pos h3]

/-- Witness for C6: with a parser mapping everything to instant 5 and
`now = 10`, a past timestamp is rejected with the future-constraint error. -/
theorem c6_scheduled_at_witness :
    validateScheduledAt (fun _ => some 5) 10 "2020" =
      .error { message := "scheduled_at must be in the future. Received: \"" ++ jsTrim "2020" ++ "\"",
               field := "scheduled_at", value := .vstr (jsTrim "2020"), now := some 10 } :=
  (c6_scheduled_at (fun _ => some 5) 10 "2020").2 5 (by decide) (by decide) rfl (by decide)

theorem validateMethod_ok_eq (x y : Option String) (h : validateMethod x = .ok y) : y = x := by
  cases x with
  | none =>
    simp only [validateMethod] at h
    injection h with h
    exact h.symm
  | some m =>
    simp only [validateMethod] at h
    split_ifs at h with hc
    injection h with h
    exact h.symm

theorem eventsCreateValidate_ok_inv (b : Option String) (pd : String → Option Int) (now : Int)
    (i : CreateEventInput) (v : ValidatedEventInput)
    (h : eventsCreateValidate b pd now i = .ok v) :
    validateScheduledAt pd now i.scheduled_at = .ok () ∧
    validateMethod (some (i.method.getD "POST")) = .ok v.method ∧
    validateAndNormalizeWebhookUrl b i.webhook_url = .ok v.webhook_url ∧
    v.scheduled_at = i.scheduled_at ∧ v.headers = i.headers ∧ v.retry_config = i.retry_config := by
  cases hs : validateScheduledAt pd now i.scheduled_at with
  | error e => simp [eventsCreateValidate, hs, Bind.bind, Except.bind] at h
  | ok u =>
    cases u
    cases hm : validateMethod (some (i.method.getD "POST")) with
    | error e => simp [eventsCreateValidate, hs, hm, Bind.bind, Except.bind] at h
    | ok m =>
      cases hu : validateAndNormalizeWebhookUrl b i.webhook_url with
      | error e => simp [eventsCreateValidate, hs, hm, hu, Bind.bind, Except.bind] at h
      | ok url =>
        cases hr : validateRetryConfig i.retry_config with
        | error e => simp [eventsCreateValidate, hs, hm, hu, hr, Bind.bind, Except.bind] at h
        | ok u2 =>
          cases u2
          cases hh : validateHeaders i.headers with
          | error e => simp [eventsCreateValidate, hs, hm, hu, hr, hh, Bind.bind, Except.bind] at h
          | ok u3 =>
            cases u3
            simp only [eventsCreateValidate, hs, hm, hu, hr, hh, Bind.bind, Except.bind,
              Pure.pure, Except.pure, Except.ok.injEq] at h
            subst h
            exact ⟨rfl, rfl, rfl, rfl, rfl, rfl⟩

theorem eventsUpdateValidate_ok_method (b : Option String) (pd : String → Option Int) (now : Int)
    (i : UpdateEventInput) (v : ValidatedEventInput)
    (h : eventsUpdateValidate b pd now i = .ok v) :
    validateMethod i.method = .ok v.method := by
  cases hs : validateScheduledAt pd now i.scheduled_at with
  | error e => simp [eventsUpdateValidate, hs, Bind.bind, Except.bind] at h
  | ok u =>
    cases u
    cases hm : validateMethod i.method with
    | error e => simp [eventsUpdateValidate, hs, hm, Bind.bind, Except.bind] at h
    | ok m =>
      cases hu : validateAndNormalizeWebhookUrl b i.webhook_url with
      | error e => simp [eventsUpdateValidate, hs, hm, hu, Bind.bind, Except.bind] at h
      | ok url =>
        cases hr : validateRetryConfig i.retry_config with
        | error e => simp [eventsUpdateValidate, hs, hm, hu, hr, Bind.bind, Except.bind] at h
        | ok u2 =>
          cases u2
          cases hh : validateHeaders i.headers with
          | error e => simp [eventsUpdateValidate, hs, hm, hu, hr, hh, Bind.bind, Except.bind] at h
          | ok u3 =>
            cases u3
            simp only [eventsUpdateValidate, hs, hm, hu, hr, hh, Bind.bind, Except.bind,
              Pure.pure, Except.pure, Except.ok.injEq] at h
            subst h
            rfl

/-! ## C7: the HTTP method validator and the create-only POST default -/

/-- C7: `validateMethod` passes `undefined` through unchanged; a defined
method outside the fixed 7-element set raises a ValidationError listing the
allowed set; a missing method is replaced by the default `POST` only by the
create pipeline, while the update pipeline passes the caller's method
through, possibly undefined. -/
theorem c7_method_validation :
    validateMethod none = .ok none ∧
    (∀ m, m ∈ ALLOWED_HTTP_METHODS → validateMethod (some m) = .ok (some m)) ∧
    (∀ m, m ∉ ALLOWED_HTTP_METHODS →
      validateMethod (some m) =
        .error { message := "Invalid HTTP method: \"" ++ m ++ "\". Must be one of: " ++
                   String.intercalate ", " ALLOWED_HTTP_METHODS,
                 field := "method", value := .vstr m,
                 allowedMethods := some ALLOWED_HTTP_METHODS }) ∧
    (∀ b pd now, ∀ i : CreateEventInput, ∀ v, i.method = none →
      eventsCreateValidate b pd now i = .ok v → v.method = some "POST") ∧
    (∀ b pd now, ∀ i : UpdateEventInput, ∀ v,
      eventsUpdateValidate b pd now i = .ok v → v.method = i.method) := by
  refine ⟨rfl, ?_, ?_, ?_, ?_⟩
  · intro m hm
    simp [validateMethod, hm]
  · intro m hm
    simp [validateMethod, hm]
  · intro b pd now i v hnone h
    have inv := (eventsCreateValidate_ok_inv b pd now i v h).2.1
    rw [hnone, Option.getD_none] at inv
    have hpost : validateMethod (some "POST") = .ok (some "POST") := rfl
    rw [hpost] at inv
    injection inv with inv
    exact inv.symm
  · intro b pd now i v h
    exact validateMethod_ok_eq i.method v.method (eventsUpdateValidate_ok_method b pd now i v h)

/-- Witness for C7: `GET` is in the allowed set and passes through. -/
theorem c7_method_validation_witness : validateMethod (some "GET") = .ok (some "GET") :=
  c7_method_validation.2.1 "GET" (by decide)

/-! ## C1: the validation order of `events.create` -/

/-- An input for `events.create` whose `method` and `scheduled_at` are both
invalid. -/
def c1Input : CreateEventInput :=
  { webhook_url := "https://example.com", method := some "INVALID", scheduled_at := "" }

/-- C1 counterexample: on an input whose `method` is invalid and whose
`scheduled_at` is invalid, the ValidationError raised by the create
pipeline is the `scheduled_at` one, not the `method` one — the
scheduled-time check fires before the method and URL checks, contradicting
the claimed order. -/
theorem c1_counterexample :
    isErr (validateMethod c1Input.method) = true ∧
    eventsCreateValidate none (fun _ => none) 0 c1Input =
      .error { message := "scheduled_at is required and must be a string",
               field := "scheduled_at", value := .vstr "" } :=
  ⟨by decide, by decide⟩

/-- C1 (amended): the validations of `events.create` run in the fixed order
scheduled time first, then HTTP method (defaulting a missing method to
POST), webhook URL, retry config, and headers last — on an input with
several invalid fields the ValidationError raised is the one for the
earliest field in that order, and the scheduled-time check always fires
before the method and URL checks. -/
theorem c1_validation_order (b : Option String) (pd : String → Option Int) (now : Int)
    (i : CreateEventInput) :
    (∀ e, validateScheduledAt pd now i.scheduled_at = .error e →
      eventsCreateValidate b pd now i = .error e) ∧
    (∀ e, validateScheduledAt pd now i.scheduled_at = .ok () →
      validateMethod (some (i.method.getD "POST")) = .error e →
      eventsCreateValidate b pd now i = .error e) ∧
    (∀ e m, validateScheduledAt pd now i.scheduled_at = .ok () →
      validateMethod (some (i.method.getD "POST")) = .ok m →
      validateAndNormalizeWebhookUrl b i.webhook_url = .error e →
      eventsCreateValidate b pd now i = .error e) ∧
    (∀ e m u, validateScheduledAt pd now i.scheduled_at = .ok () →
      validateMethod (some (i.method.getD "POST")) = .ok m →
      validateAndNormalizeWebhookUrl b i.webhook_url = .ok u →
      validateRetryConfig i.retry_config = .error e →
      eventsCreateValidate b pd now i = .error e) ∧
    (∀ e m u, validateScheduledAt pd now i.scheduled_at = .ok () →
      validateMethod (some (i.method.getD "POST")) = .ok m →
      validateAndNormalizeWebhookUrl b i.webhook_url = .ok u →
      validateRetryConfig i.retry_config = .ok () →
      validateHeaders i.headers = .error e →
      eventsCreateValidate b pd now i = .error e) ∧
    (∀ m u, validateScheduledAt pd now i.scheduled_at = .ok () →
      validateMethod (some (i.method.getD "POST")) = .ok m →
      validateAndNormalizeWebhookUrl b i.webhook_url = .ok u →
      validateRetryConfig i.retry_config = .ok () →
      validateHeaders i.headers = .ok () →
      eventsCreateValidate b pd now i =
        .ok { webhook_url := u, method := m, scheduled_at := i.scheduled_at,
              headers := i.headers, retry_config := i.retry_config }) := by
  refine ⟨?_, ?_, ?_, ?_, ?_, ?_⟩
  · intro e hs
    simp [eventsCreateValidate, hs, Bind.bind, Except.bind]
  · intro e hs hm
    simp [eventsCreateValidate, hs, hm, Bind.bind, Except.bind]
  · intro e m hs hm hu
    simp [eventsCreateValidate, hs, hm, hu, Bind.bind, Except.bind]
  · intro e m u hs hm hu hr
    simp [eventsCreateValidate, hs, hm, hu, hr, Bind.bind, Except.bind]
  · intro e m u hs hm hu hr hh
    simp [eventsCreateValidate, hs, hm, hu, hr, hh, Bind.bind, Except.bind]
  · intro m u hs hm hu hr hh
    simp [eventsCreateValidate, hs, hm, hu, hr, hh, Bind.bind, Except.bind,
      Pure.pure, Except.pure]

/-- Witness for C1 (amended): an input with only an invalid (empty)
`scheduled_at` is rejected with exactly the scheduled-time error, by the
first conjunct of the theorem. -/
theorem c1_validation_order_witness :
    eventsCreateValidate none (fun _ => none) 0
      { webhook_url := "https://example.com", method := none, scheduled_at := "" } =
      .error { message := "scheduled_at is required and must be a string",
               field := "scheduled_at", value := .vstr "" } :=
  (c1_validation_order none (fun _ => none) 0
      { webhook_url := "https://example.com", method := none, scheduled_at := "" }).1
    { message := "scheduled_at is required and must be a string",
      field := "scheduled_at", value := .vstr "" } (by decide)

/-! ## C8: the transport error translation -/

/-- C8: every non-2xx response raises exactly one typed error determined by
the status: 401 ↦ UnauthorizedError, 404 ↦ NotFoundError, 400 ↦
ValidationError when the server code is `VALIDATION_ERROR` and
BadRequestError otherwise, any status ≥ 500 ↦ InternalServerError, any
other unmapped status ↦ InternalServerError; a JSON body parse failure
also raises InternalServerError. -/
theorem c8_transport_error_mapping :
    (∀ c m, (handleError 401 c m).kindOf = some .unauthorized) ∧
    (∀ c m, (handleError 404 c m).kindOf = some .notFound) ∧
    (∀ m, (handleError 400 (some "VALIDATION_ERROR") m).kindOf = some .validationError) ∧
    (∀ c m, c ≠ some "VALIDATION_ERROR" → (handleError 400 c m).kindOf = some .badRequest) ∧
    (∀ s c m, 500 ≤ s → (handleError s c m).kindOf = some .internalServerError) ∧
    (∀ s c m, s ≠ 401 → s ≠ 404 → s ≠ 400 → s < 500 →
      (handleError s c m).kindOf = some .internalServerError) ∧
    (∀ k msg, ∀ resp : ResponseModel, resp.isJson = true → resp.jsonBody = .error msg →
      requestOutcome (.ok k) resp =
        .error (.cuey .internalServerError ("Failed to parse JSON response: " ++ msg))) ∧
    (∀ k b, ∀ resp : ResponseModel, responseOk resp.status = false → resp.isJson = true →
      resp.jsonBody = .ok b →
      requestOutcome (.ok k) resp = .error (handleError resp.status b.errorCode b.errorMessage)) ∧
    (∀ k, ∀ resp : ResponseModel, responseOk resp.status = false → resp.isJson = false →
      requestOutcome (.ok k) resp = .error (handleError resp.status none none)) := by
  refine ⟨fun c m => rfl, fun c m => rfl, fun m => rfl, ?_, ?_, ?_, ?_, ?_, ?_⟩
  · intro c m hc
    simp only [handleError, beq_iff_eq]
    rw [if_neg (by omega), if_neg (by omega), if_pos trivial, if_neg hc]
    rfl
  · intro s c m hs
    simp only [handleError, beq_iff_eq]
    rw [if_neg (by omega), if_neg (by omega), if_neg (by omega), if_pos hs]
    rfl
  · intro s c m h1 h2 h3 h4
    simp only [handleError, beq_iff_eq]
    rw [if_neg h1, if_neg h2, if_neg h3, if_neg (by omega)]
    rfl
  · intro k msg resp hjson hbody
    simp [requestOutcome, hjson, hbody]
  · intro k b resp hstatus hjson hbody
    simp [requestOutcome, hjson, hbody, hstatus]
  · intro k resp hstatus hjson
    simp [requestOutcome, hjson, hstatus]

/-- Witness for C8: a 404 JSON response produces the NotFound translation. -/
theorem c8_transport_error_mapping_witness :
    requestOutcome (.ok "key") { status := 404, isJson := true, jsonBody := .ok {} } =
      .error (handleError 404 none none) :=
  c8_transport_error_mapping.2.2.2.2.2.2.2.1 "key" {}
    { status := 404, isJson := true, jsonBody := .ok {} } (by decide) rfl rfl

/-! ## C9: facade construction and configuration resolution -/

/-- C9: constructing the facade is a total operation for every
configuration, including the empty one; the base URL is resolved eagerly
at construction with the explicit config value taking precedence over the
environment variable, else `undefined`; the API key is not resolved at
construction — only the lazy accessor fails, with the descriptive
"API key is required" error, when nothing truthy resolves. -/
theorem c9_config_resolution :
    mkCuey {} none = { webhookBaseUrl := none, configApiKey := none } ∧
    (∀ config : CueyConfig, ∀ envB b, config.baseUrl = some b → b ≠ "" →
      (mkCuey config envB).webhookBaseUrl = some b) ∧
    (∀ config : CueyConfig, ∀ envB, truthyStr config.baseUrl = false → truthyStr envB = true →
      (mkCuey config envB).webhookBaseUrl = envB) ∧
    (∀ config : CueyConfig, ∀ envB, truthyStr config.baseUrl = false → truthyStr envB = false →
      (mkCuey config envB).webhookBaseUrl = none) ∧
    (∀ config : CueyConfig, ∀ envB, (mkCuey config envB).configApiKey = config.apiKey) ∧
    (∀ ck ek, truthyStr ck = false → truthyStr ek = false →
      getApiKey ck ek = .error apiKeyRequiredMessage) ∧
    jsStartsWith apiKeyRequiredMessage "API key is required" = true ∧
    (∀ ck ek k, ck = some k → k ≠ "" → getApiKey ck ek = .ok k) := by
  refine ⟨rfl, ?_, ?_, ?_, fun config envB => rfl, ?_, by decide, ?_⟩
  · intro config envB b hb hbne
    simp [mkCuey, firstTruthy, truthyStr, hb, hbne]
  · intro config envB h1 h2
    simp [mkCuey, firstTruthy, h1, h2]
  · intro config envB h1 h2
    simp [mkCuey, firstTruthy, h1, h2]
  · intro ck ek h1 h2
    simp [getApiKey, firstTruthy, h1, h2]
  · intro ck ek k hk hkne
    simp [getApiKey, firstTruthy, truthyStr, hk, hkne]

/-- Witness for C9: with an explicit base URL and environment fallbacks for
both settings, the explicit value wins and a fully-empty key resolution
fails with the descriptive error. -/
theorem c9_config_resolution_witness :
    (mkCuey { baseUrl := some "https://a" } (some "https://b")).webhookBaseUrl =
        some "https://a" ∧
    getApiKey none none = .error apiKeyRequiredMessage :=
  ⟨c9_config_resolution.2.1 { baseUrl := some "https://a" } (some "https://b") "https://a" rfl
      (by decide),
    c9_config_resolution.2.2.2.2.2.1 none none (by decide) (by decide)⟩

/-! ## C10: the missing-key failure is a plain Error, outside the taxonomy -/

/-- C10: when no API key resolves, the error thrown on first use is the
plain built-in `Error` with message starting "API key is required" — not a
member of the typed CueyError taxonomy, with no `code` and no
`statusCode` — so matching only on the closed taxonomy misses it. -/
theorem c10_missing_key_plain_error :
    getApiKey none none = .error apiKeyRequiredMessage ∧
    jsStartsWith apiKeyRequiredMessage "API key is required" = true ∧
    (∀ resp : ResponseModel,
      requestOutcome (getApiKey none none) resp = .error (.plain apiKeyRequiredMessage)) ∧
    (∀ kind m, ThrownError.plain apiKeyRequiredMessage ≠ ThrownError.cuey kind m) ∧
    (ThrownError.plain apiKeyRequiredMessage).codeOf = none ∧
    (ThrownError.plain apiKeyRequiredMessage).statusCodeOf = none := by
  refine ⟨rfl, by decide, fun resp => rfl, ?_, rfl, rfl⟩
  intro kind m h
  exact ThrownError.noConfusion h

/-- Witness for C10: the first request with an unresolvable key fails with
the plain error, by the third conjunct of the theorem. -/
theorem c10_missing_key_plain_error_witness :
    requestOutcome (getApiKey none none) { status := 200, isJson := true } =
      .error (.plain apiKeyRequiredMessage) :=
  c10_missing_key_plain_error.2.2.1 { status := 200, isJson := true }

/-- Witness for C4 (amended): `"not-a-url"` falls in the prefix-free error
case of the characterization. -/
theorem c4_webhook_url_error_cases_witness :
    isErr (validateAndNormalizeWebhookUrl none "not-a-url") = true :=
  (c4_webhook_url_error_cases none "not-a-url").mpr (by decide)

end Cuey
